import Mathlib

/-!
# Verification of the Hydrophone Analyzer's tab system and state management

A shallow embedding, in Lean 4, of the parts of the hydrophone
visualization program that its specification talks about:

* `state.py` — the global mutable state module (`ModuleState` below), its
  `save_project` / `load_project` / `reset_state` functions;
* `ui_tab_system.py` — `TabBase.show`/`hide`, `TabManager.add_tab`,
  `TabManager.switch_to_tab`;
* `ui_layout.py` — the tab-adding sequence of `create_modern_layout`;
* `ui_tabs.py` — the `AnalysisTab`, `FilterTab` and `AnnotationsTab`
  callbacks the claims mention.

Python floats are embedded as `ℚ`, `None` as `Option.none`, a Python dict
with a fixed key set as a structure, exceptions as `Except`.  UI handles
(matplotlib figures, axes, lines, patches) carry no data the embedded
operations read except where noted, and are embedded as `Option Unit`
(present or `None`) or as the one datum the code reads from them (for
example `spec_click_line` is read only through `get_xdata()[0]`, so it is
embedded as the `x` position of that line).
-/

namespace Hydro

/-- A `pytz` timezone object as `state.py` uses it: the code only ever asks
`hasattr(tz, 'zone')` and reads `tz.zone`, so a timezone is embedded as the
optional value of its `zone` attribute (`pytz.UTC.zone = "UTC"`). -/
structure Timezone where
  zone : Option String
deriving DecidableEq, Repr

/-- `pytz.UTC`. -/
def pytzUTC : Timezone := ⟨some "UTC"⟩

/-- One entry of `state.freq_markers`: the 5-tuple
`(vline, text, index, freq, hline)`.  `vline`, `text` and `hline` are
matplotlib artists (present or `None`); `save_project` reads only `freq`. -/
structure FreqMarker where
  vline : Option Unit
  text : Option Unit
  index : Nat
  freq : Option ℚ
  hline : Option Unit
deriving DecidableEq, Repr

/-- The module-level variables of `state.py` that the embedded operations
read or write.  Field order and initial values follow the module body.
The figure/axes/button handles other than `ax_fft` are never read by any
embedded operation and are not reset by `reset_state` (its own comment:
axes and UI component references are not reset), so they are omitted. -/
structure ModuleState where
  data_global : Option (List (List ℚ))
  freqs_global : Option (List ℚ)
  file_paths : List String
  file_ranges : List (Nat × Nat)
  time_labels_all : List String
  timestamp_all : List Int
  current_timezone : Timezone
  audio_data : Option (List ℚ)
  audio_sample_rate : Nat
  audio_segments : List (Nat × Nat)
  audio_file_info : List String
  audio_volume : ℚ
  audio_playing : Bool
  audio_stop_flag : Bool
  audio_finished : Bool
  audio_thread : Option Unit
  audio_playback_line : Option Unit
  audio_playback_line_timeline : Option Unit
  spec_img : Option Unit
  nav_spec_img : Option Unit
  time_zoom_start : Int
  time_zoom_end : Int
  nav_dragging : Bool
  nav_resizing : Bool
  nav_drag_start : Option (ℚ × ℚ)
  nav_resize_edge : Option String
  nav_box : Option Unit
  spec_click_line : Option Int
  spec_click_text : Option String
  selected_range : Option (Nat × Nat)
  fft_patch : Option Unit
  file_patch : Option Unit
  file_texts : List String
  fft_ymin : ℚ
  fft_ymax : ℚ
  freq_markers : List FreqMarker
  file_scroll_position : Nat
  visible_files : Nat
  scroll_position : Nat
  log_entries : List String
  info_labels : List (String × String)
  ax_fft : Option Unit
  gain_slider : Option (ℚ × ℚ)
deriving DecidableEq, Repr

/-- The initial binding of every field of `ModuleState`, as the top of
`state.py` assigns it (`current_timezone = pytz.UTC`, `fft_ymin = 0`,
`fft_ymax = 120`, the two-element empty-marker list, and so on). -/
def initModuleState : ModuleState where
  data_global := none
  freqs_global := none
  file_paths := []
  file_ranges := []
  time_labels_all := []
  timestamp_all := []
  current_timezone := pytzUTC
  audio_data := none
  audio_sample_rate := 44100
  audio_segments := []
  audio_file_info := []
  audio_volume := 1/2
  audio_playing := false
  audio_stop_flag := false
  audio_finished := false
  audio_thread := none
  audio_playback_line := none
  audio_playback_line_timeline := none
  spec_img := none
  nav_spec_img := none
  time_zoom_start := 0
  time_zoom_end := 0
  nav_dragging := false
  nav_resizing := false
  nav_drag_start := none
  nav_resize_edge := none
  nav_box := none
  spec_click_line := none
  spec_click_text := none
  selected_range := none
  fft_patch := none
  file_patch := none
  file_texts := []
  fft_ymin := 0
  fft_ymax := 120
  freq_markers := [⟨none, none, 0, none, none⟩, ⟨none, none, 1, none, none⟩]
  file_scroll_position := 0
  visible_files := 12
  scroll_position := 0
  log_entries := []
  info_labels := []
  ax_fft := none
  gain_slider := none

/-- Modelled from the spec: `utils.add_log_entry` is imported by every UI
module but `utils.py` is not among the source files.  The spec describes
the log as best-effort UI logging into the log display backed by
`state.log_entries`, so the call is modelled as appending the message to
`state.log_entries`. -/
def add_log_entry (st : ModuleState) (msg : String) : ModuleState :=
  { st with log_entries := st.log_entries ++ [msg] }

/-! ## `ui_tab_system.py` — `TabBase` visibility and `TabManager`

`TabBase.show` sets every stored component's and axes' visibility to
`True` and then `self.visible = True`; `TabBase.hide` does the same with
`False`.  Component and axes visibility always move together with
`self.visible`, so a tab's visibility is embedded as the one `visible`
flag, and `TabManager.tabs` (a Python dict, insertion-ordered) as an
association list from tab name to that flag. -/

/-- `TabManager`: its `tabs` dict (name ↦ the tab's `visible` flag) and
`active_tab`.  The tab-bar button colours carry no state the claims
mention. -/
structure TabMgr where
  tabs : List (String × Bool)
  active_tab : Option String
deriving DecidableEq, Repr

/-- Python `name in self.tabs` on the embedded dict. -/
def hasTab (tabs : List (String × Bool)) (name : String) : Bool :=
  (tabs.lookup name).isSome

/-- `self.tabs[name].show()` / `.hide()`: set the named tab's `visible`
flag (every entry with that key; keys are unique in a dict). -/
def setTabVisible (tabs : List (String × Bool)) (name : String) (b : Bool) :
    List (String × Bool) :=
  tabs.map fun p => if p.1 = name then (p.1, b) else p

/-- `self.tabs[name] = tab`: dict assignment, replacing the entry if the
key exists, appending otherwise.  The fresh tab has `visible = False`
(`TabBase.__init__`). -/
def setTabEntry (tabs : List (String × Bool)) (name : String) :
    List (String × Bool) :=
  if hasTab tabs name then setTabVisible tabs name false
  else tabs ++ [(name, false)]

/-! ### The tab builds (`TabBase.build` overrides in `ui_tabs.py`)

Each `build` starts with three statements of the shape
`self.<target> = self.create_section(<title>, ...)`.  Attribute lookup in
Python checks the instance `__dict__` before the class, and assignment
writes the instance `__dict__`; `create_section` resolves to the
`TabBase` method until an instance attribute shadows it.  Calling the
method returns a matplotlib `Axes`; calling an `Axes` raises `TypeError`.
The rest of each build assigns widgets to fresh attribute names and
raises nothing, so the section statements are the part embedded here. -/

/-- What `self.create_section` can refer to during a build. -/
inductive SectionAttr
  /-- The bound method `TabBase.create_section`. -/
  | method : SectionAttr
  /-- A matplotlib `Axes` returned by a previous `create_section` call. -/
  | axesObj (title : String) : SectionAttr
deriving DecidableEq, Repr

/-- Calling the value of `self.create_section` with a section title:
the method returns a fresh `Axes`; an `Axes` is not callable. -/
def callSectionAttr : SectionAttr → String → Except String SectionAttr
  | SectionAttr.method, title => Except.ok (SectionAttr.axesObj title)
  | SectionAttr.axesObj _, _ =>
      Except.error "TypeError: 'Axes' object is not callable"

/-- A tab instance's `__dict__`, restricted to the attributes the section
statements touch. -/
structure TabSelf where
  instAttrs : List (String × SectionAttr)
deriving DecidableEq, Repr

/-- Attribute lookup for `self.create_section`: the instance `__dict__`
first, else the class method `TabBase.create_section`. -/
def getSectionAttr (self : TabSelf) : SectionAttr :=
  (self.instAttrs.lookup "create_section").getD SectionAttr.method

/-- `self.<target> = <v>`: write the instance `__dict__` (replace or add). -/
def setSelfAttr (self : TabSelf) (target : String) (v : SectionAttr) : TabSelf :=
  if (self.instAttrs.lookup target).isSome then
    ⟨self.instAttrs.map fun p => if p.1 = target then (p.1, v) else p⟩
  else ⟨self.instAttrs ++ [(target, v)]⟩

/-- Run the statements `self.<target> = self.create_section(<title>, ...)`
in order; a raised `TypeError` propagates. -/
def buildSections : List (String × String) → TabSelf → Except String TabSelf
  | [], self => Except.ok self
  | (target, title) :: rest, self =>
    match callSectionAttr (getSectionAttr self) title with
    | Except.error e => Except.error e
    | Except.ok v => buildSections rest (setSelfAttr self target v)

/-- `AnalysisTab.build`'s section statements. -/
def analysisSections : List (String × String) :=
  [("fft_section", "FFT Controls"), ("measurement_section", "Measurements"),
   ("statistics_section", "Statistics")]

/-- `FilterTab.build`'s section statements. -/
def filterSections : List (String × String) :=
  [("capture_section", "Capture Background Profile"),
   ("profiles_section", "Noise Profiles"), ("filtering_section", "Apply Filtering")]

/-- `AnnotationsTab.build`'s section statements.  The first target is
`create_section` itself: `self.create_section = self.create_section(...)`. -/
def annotationsSections : List (String × String) :=
  [("create_section", "Create Annotation"), ("list_section", "Annotations List"),
   ("edit_section", "Edit Annotation")]

/-- `ExportTab.build`'s section statements. -/
def exportSections : List (String × String) :=
  [("audio_section", "Export Audio"), ("image_section", "Export Images"),
   ("report_section", "Generate Report")]

/-- `tab.build()` for the tab class registered under each name in
`create_modern_layout`. -/
def buildTab (name : String) : Except String TabSelf :=
  if name = "analysis" then buildSections analysisSections ⟨[]⟩
  else if name = "filter" then buildSections filterSections ⟨[]⟩
  else if name = "annotations" then buildSections annotationsSections ⟨[]⟩
  else if name = "export" then buildSections exportSections ⟨[]⟩
  else Except.ok ⟨[]⟩

/-- `TabManager.add_tab(name, tab_class)`: create the tab
(`visible = False`), put it in the `tabs` dict, `build` it, then `hide`
it.  A `TypeError` raised by `build` propagates after the dict insertion,
so the half-built tab stays in the dict. -/
def add_tab (m : TabMgr) (name : String) : TabMgr × Option String :=
  let tabs1 := setTabEntry m.tabs name
  match buildTab name with
  | Except.error e => ({ m with tabs := tabs1 }, some e)
  | Except.ok _ => ({ m with tabs := setTabVisible tabs1 name false }, none)

/-- The hide-current-tab step of `switch_to_tab`:
`if self.active_tab and self.active_tab in self.tabs: self.tabs[self.active_tab].hide()`. -/
def hideActiveTabs (m : TabMgr) : List (String × Bool) :=
  match m.active_tab with
  | some a => if hasTab m.tabs a then setTabVisible m.tabs a false else m.tabs
  | none => m.tabs

/-- `TabManager.switch_to_tab(name)`: unknown names are only logged; a
known name hides the active tab (when one is set and present), shows the
named tab and records it as active. -/
def switch_to_tab (st : ModuleState) (m : TabMgr) (name : String) :
    ModuleState × TabMgr :=
  if ¬ hasTab m.tabs name then
    (add_log_entry st ("Tab '" ++ name ++ "' not found"), m)
  else
    (add_log_entry st ("Switched to " ++ name ++ " tab"),
     { tabs := setTabVisible (hideActiveTabs m) name true, active_tab := some name })

/-- The tab names `create_modern_layout` adds, in order. -/
def layoutTabNames : List String := ["analysis", "filter", "annotations", "export"]

/-- `add_tab` over a list of names, stopping at the first raised error
(the exception aborts `create_modern_layout`). -/
def addTabsSeq : TabMgr → List String → TabMgr × Option String
  | m, [] => (m, none)
  | m, n :: rest =>
    match add_tab m n with
    | (m', some e) => (m', some e)
    | (m', none) => addTabsSeq m' rest

/-- The tab-adding part of `create_modern_layout` (`ui_layout.py`):
a fresh `TabManager`, then the four `add_tab` calls. -/
def create_modern_layout_tabs : TabMgr × Option String :=
  addTabsSeq { tabs := [], active_tab := none } layoutTabNames

/-- The tab-manager state the claims describe `create_modern_layout` as
producing: the four tabs added hidden, then `switch_to_tab('analysis')`. -/
def layoutTabMgr : TabMgr :=
  { tabs := layoutTabNames.map fun n => (n, false), active_tab := none }

/-! ### Tab exclusivity (C1) and the build failure (C2) -/

/-- The invariant behind tab exclusivity: tab names are unique (they key a
Python dict) and any visible tab is the recorded active tab. -/
def TabInv (m : TabMgr) : Prop :=
  (m.tabs.map Prod.fst).Nodup ∧ ∀ p ∈ m.tabs, p.2 = true → m.active_tab = some p.1

theorem hideActiveTabs_none {m : TabMgr} (h : m.active_tab = none) :
    hideActiveTabs m = m.tabs := by
  unfold hideActiveTabs
  rw [h]

theorem hideActiveTabs_some {m : TabMgr} {a : String} (h : m.active_tab = some a) :
    hideActiveTabs m =
      if hasTab m.tabs a then setTabVisible m.tabs a false else m.tabs := by
  unfold hideActiveTabs
  rw [h]

theorem map_fst_setTabVisible (tabs : List (String × Bool)) (n : String) (b : Bool) :
    (setTabVisible tabs n b).map Prod.fst = tabs.map Prod.fst := by
  induction tabs with
  | nil => rfl
  | cons p t ih =>
    simp only [setTabVisible, List.map_cons] at *
    by_cases h : p.1 = n <;> simp [h, ih]

theorem mem_setTabVisible {tabs : List (String × Bool)} {n : String} {b : Bool}
    {p : String × Bool} (h : p ∈ setTabVisible tabs n b) :
    (p.1 = n ∧ p.2 = b) ∨ (p ∈ tabs ∧ p.1 ≠ n) := by
  simp only [setTabVisible, List.mem_map] at h
  obtain ⟨q, hq, he⟩ := h
  by_cases hqn : q.1 = n
  · left
    subst he
    simp [hqn]
  · right
    subst he
    simp [hqn, hq]

theorem hasTab_of_mem {tabs : List (String × Bool)} {p : String × Bool}
    (h : p ∈ tabs) : hasTab tabs p.1 = true := by
  induction tabs with
  | nil => cases h
  | cons q t ih =>
    rcases List.mem_cons.mp h with h | h
    · subst h
      simp [hasTab, List.lookup]
    · by_cases hq : q.1 = p.1
      · simp [hasTab, List.lookup, hq]
      · have hne : (p.1 == q.1) = false := by
          simp [beq_eq_false_iff_ne]
          exact fun hc => hq hc.symm
        simpa [hasTab, List.lookup, hne] using ih h

/-- `switch_to_tab` preserves the exclusivity invariant, whatever the
requested name (known or unknown). -/
theorem map_fst_hideActiveTabs (m : TabMgr) :
    (hideActiveTabs m).map Prod.fst = m.tabs.map Prod.fst := by
  cases ha : m.active_tab with
  | none => rw [hideActiveTabs_none ha]
  | some a =>
    rw [hideActiveTabs_some ha]
    by_cases hA : hasTab m.tabs a
    · rw [if_pos hA, map_fst_setTabVisible]
    · rw [if_neg hA]

/-- Any visible entry of `hideActiveTabs m` is already visible in `m.tabs`
and is not the active tab that was hidden. -/
theorem mem_hideActiveTabs_visible {m : TabMgr} {p : String × Bool}
    (hinv : ∀ q ∈ m.tabs, q.2 = true → m.active_tab = some q.1)
    (hp : p ∈ hideActiveTabs m) (hpt : p.2 = true) : False := by
  cases ha : m.active_tab with
  | none =>
    rw [hideActiveTabs_none ha] at hp
    have := hinv p hp hpt
    rw [ha] at this
    cases this
  | some a =>
    rw [hideActiveTabs_some ha] at hp
    by_cases hA : hasTab m.tabs a
    · rw [if_pos hA] at hp
      rcases mem_setTabVisible hp with ⟨_, hb⟩ | ⟨hpm, hpa⟩
      · rw [hpt] at hb
        cases hb
      · have := hinv p hpm hpt
        rw [ha] at this
        exact hpa ((Option.some.inj this).symm ▸ rfl)
    · rw [if_neg hA] at hp
      have := hinv p hp hpt
      rw [ha] at this
      have hap : a = p.1 := Option.some.inj this
      exact hA (by rw [hap]; exact hasTab_of_mem hp)

theorem tabInv_switch_to_tab (st : ModuleState) (m : TabMgr) (name : String)
    (h : TabInv m) : TabInv (switch_to_tab st m name).2 := by
  obtain ⟨hnd, hvis⟩ := h
  unfold switch_to_tab
  by_cases hname : hasTab m.tabs name = true
  · simp only [hname, not_true_eq_false, if_false]
    refine ⟨?_, ?_⟩
    · rw [map_fst_setTabVisible, map_fst_hideActiveTabs]
      exact hnd
    · intro p hp hpt
      rcases mem_setTabVisible hp with ⟨h1, _⟩ | ⟨hp1, hne⟩
      · simp [h1]
      · exact absurd (mem_hideActiveTabs_visible hvis hp1 hpt) not_false
  · simp only [hname, not_false_eq_true, if_true]
    exact ⟨hnd, hvis⟩

theorem tabInv_foldl_switch (names : List String) :
    ∀ (q : ModuleState × TabMgr), TabInv q.2 →
      TabInv ((names.foldl (fun q n => switch_to_tab q.1 q.2 n) q)).2 := by
  induction names with
  | nil => exact fun q h => h
  | cons n rest ih =>
    intro q h
    exact ih _ (tabInv_switch_to_tab q.1 q.2 n h)

theorem length_filter_visible_le_one :
    ∀ (l : List (String × Bool)) (a : String), (l.map Prod.fst).Nodup →
      (∀ p ∈ l, p.2 = true → p.1 = a) → (l.filter (fun p => p.2)).length ≤ 1 := by
  intro l a hnd h
  induction l with
  | nil => simp
  | cons q t ih =>
    simp only [List.map_cons, List.nodup_cons] at hnd
    cases hq2 : q.2 with
    | false =>
      simp only [List.filter_cons, hq2, if_neg, Bool.false_eq_true, not_false_eq_true]
      exact ih hnd.2 fun p hp hpt => h p (List.mem_cons_of_mem q hp) hpt
    | true =>
      have hqa : q.1 = a := h q (List.mem_cons_self q t) hq2
      have ht : t.filter (fun p => p.2) = [] := by
        rw [List.filter_eq_nil_iff]
        intro p hp hc
        have hpa : p.1 = a := h p (List.mem_cons_of_mem q hp) (by simpa using hc)
        exact hnd.1 (hqa ▸ hpa ▸ List.mem_map_of_mem Prod.fst hp)
      simp [List.filter_cons, hq2, ht]

theorem tabInv_at_most_one {m : TabMgr} (h : TabInv m) :
    (m.tabs.filter (fun p => p.2)).length ≤ 1 := by
  obtain ⟨hnd, hvis⟩ := h
  cases ha : m.active_tab with
  | none =>
    have he : m.tabs.filter (fun p => p.2) = [] := by
      rw [List.filter_eq_nil_iff]
      intro p hp hc
      have := hvis p hp (by simpa using hc)
      rw [ha] at this
      cases this
    simp [he]
  | some a =>
    exact length_filter_visible_le_one _ a hnd fun p hp hpt => by
      have := hvis p hp hpt
      rw [ha] at this
      exact (Option.some.inj this).symm

/-- C1: tabs are mutually exclusive.  Starting from the state the claims
describe `create_modern_layout` as producing (the four tabs hidden, then
`switch_to_tab('analysis')`), after every finite sequence of
`switch_to_tab` calls with arbitrary names, at most one tab in the
manager's `tabs` dictionary is visible, and a visible tab is the one
recorded in `active_tab`. -/
theorem c1_tabs_mutually_exclusive (st0 : ModuleState) (names : List String) :
    (((names.foldl (fun q n => switch_to_tab q.1 q.2 n)
        (switch_to_tab st0 layoutTabMgr "analysis")).2.tabs.filter
          (fun p => p.2)).length ≤ 1) ∧
      ∀ p ∈ (names.foldl (fun q n => switch_to_tab q.1 q.2 n)
          (switch_to_tab st0 layoutTabMgr "analysis")).2.tabs, p.2 = true →
        (names.foldl (fun q n => switch_to_tab q.1 q.2 n)
          (switch_to_tab st0 layoutTabMgr "analysis")).2.active_tab = some p.1 := by
  have hlay : TabInv layoutTabMgr := by
    constructor
    · decide
    · intro p hp hpt
      simp only [layoutTabMgr, layoutTabNames, List.map_cons, List.map_nil,
        List.mem_cons, List.not_mem_nil, or_false] at hp
      rcases hp with h | h | h | h <;> (rw [h] at hpt; cases hpt)
  have hinv : TabInv ((names.foldl (fun q n => switch_to_tab q.1 q.2 n)
      (switch_to_tab st0 layoutTabMgr "analysis"))).2 :=
    tabInv_foldl_switch names _ (tabInv_switch_to_tab st0 layoutTabMgr "analysis" hlay)
  exact ⟨tabInv_at_most_one hinv, hinv.2⟩

/-- C2 (the code violates it): `AnnotationsTab.build` assigns the first
section to `self.create_section`, shadowing the method, so its second
section statement calls a matplotlib `Axes` and raises `TypeError`; the
other three builds succeed.  `create_modern_layout`'s tab-adding sequence
therefore aborts inside `add_tab('annotations', AnnotationsTab)` with the
tabs dictionary holding `analysis`, `filter` and the half-built
`annotations` — `export` is never added, and the four-tab dictionary the
claim promises is never reached. -/
theorem c2_annotations_build_raises :
    buildTab "annotations" = Except.error "TypeError: 'Axes' object is not callable" ∧
    (buildTab "analysis").isOk = true ∧
    (buildTab "filter").isOk = true ∧
    (buildTab "export").isOk = true ∧
    create_modern_layout_tabs =
      ({ tabs := [("analysis", false), ("filter", false), ("annotations", false)],
         active_tab := none }, some "TypeError: 'Axes' object is not callable") :=
  ⟨rfl, rfl, rfl, rfl, rfl⟩

/-! ## `state.py` — `save_project`, `load_project`, `reset_state`

`save_project` pickles a dictionary of primitives to a file and
`load_project` unpickles it; both wrap their whole body in
`try/except`, log the error and return `False`/`None` on any exception.
Pickling is embedded by a filesystem that stores the dictionary value
itself (`pickle.dump`/`pickle.load` round-trip structurally); the one
exception source in scope is opening the file (missing directory or
file, permissions), embedded as a set of paths where opening raises. -/

/-- The pickled project dictionary, with the exact key set `save_project`
builds: `file_paths`, `time_zoom`, `gain`, `current_timezone`, the
optional `click_index`, and `freq_markers`. -/
structure StateDict where
  file_paths : List String
  time_zoom : Int × Int
  gain : ℚ × ℚ
  current_timezone : String
  click_index : Option Int
  freq_markers : List (Option ℚ)
deriving DecidableEq, Repr

/-- The dictionary `save_project` builds from the module state:
`gain_slider.val if gain_slider else (0, 1)`, the timezone's `zone`
attribute (else `'UTC'`), `click_index` only when the click line exists
(read through `int(...get_xdata()[0])`), and the markers' `freq`
components. -/
def mkStateDict (st : ModuleState) : StateDict where
  file_paths := st.file_paths
  time_zoom := (st.time_zoom_start, st.time_zoom_end)
  gain := st.gain_slider.getD (0, 1)
  current_timezone := st.current_timezone.zone.getD "UTC"
  click_index := st.spec_click_line
  freq_markers := st.freq_markers.map fun mk => mk.freq

/-- The filesystem the save/load pair sees: the pickle files by path, and
the paths where opening the file raises (`OSError` and kin). -/
structure FS where
  files : List (String × StateDict)
  badPaths : List String
deriving DecidableEq, Repr

/-- Read a path's pickle file. -/
def lookupFile : List (String × StateDict) → String → Option StateDict
  | [], _ => none
  | (k, v) :: t, fp => if k = fp then some v else lookupFile t fp

/-- Write a path's pickle file (overwrite or create). -/
def writeFile : List (String × StateDict) → String → StateDict → List (String × StateDict)
  | [], fp, d => [(fp, d)]
  | (k, v) :: t, fp, d =>
    if k = fp then (k, d) :: t else (k, v) :: writeFile t fp d

/-- A line emitted through the `logging` module. -/
inductive LogMsg
  | info (msg : String) : LogMsg
  | error (msg : String) : LogMsg
deriving DecidableEq, Repr

/-- The `try` body of `save_project`: build the dictionary, open the file
for writing, `pickle.dump`.  An `OSError` from `open` is the raised
exception. -/
def save_project_body (fp : String) (st : ModuleState) (fs : FS) : Except String FS :=
  let d := mkStateDict st
  if fp ∈ fs.badPaths then Except.error ("cannot open " ++ fp)
  else Except.ok { fs with files := writeFile fs.files fp d }

/-- `state.save_project(filepath)`: returns the updated filesystem, the
boolean result, and the log lines.  The `except` arm catches every
exception, logs it and returns `False`. -/
def save_project (fp : String) (st : ModuleState) (fs : FS) :
    FS × Bool × List LogMsg :=
  match save_project_body fp st fs with
  | Except.ok fs' => (fs', true, [LogMsg.info ("Project saved to " ++ fp)])
  | Except.error e => (fs, false, [LogMsg.error ("Error saving project: " ++ e)])

/-- The `try` body of `load_project`: open the file, `pickle.load`.  A
missing or unopenable file is the raised exception. -/
def load_project_body (fp : String) (fs : FS) : Except String StateDict :=
  if fp ∈ fs.badPaths then Except.error ("cannot open " ++ fp)
  else
    match lookupFile fs.files fp with
    | some d => Except.ok d
    | none => Except.error ("no such file " ++ fp)

/-- `state.load_project(filepath)`: the unpickled dictionary on success,
`None` after any exception; the error is logged either way. -/
def load_project (fp : String) (fs : FS) : Option StateDict × List LogMsg :=
  match load_project_body fp fs with
  | Except.ok d => (some d, [LogMsg.info ("Project loaded from " ++ fp)])
  | Except.error e => (none, [LogMsg.error ("Error loading project: " ++ e)])

/-- `state.reset_state()`.  The variables named in the function's
`global` statement are reset to their initial values.  Seven variables
are assigned in the body but are missing from the `global` statement —
`current_timezone`, `fft_ymin`, `fft_ymax`, `freq_markers`,
`file_scroll_position`, `visible_files`, `scroll_position` — so those
assignments bind function-locals and the module-level values stay as
they were; the embedding therefore leaves those fields unchanged. -/
def reset_state (st : ModuleState) : ModuleState :=
  { st with
    data_global := none
    freqs_global := none
    file_paths := []
    file_ranges := []
    time_labels_all := []
    timestamp_all := []
    audio_data := none
    audio_sample_rate := 44100
    audio_segments := []
    audio_file_info := []
    audio_volume := 1/2
    audio_playing := false
    audio_stop_flag := false
    audio_finished := false
    audio_thread := none
    audio_playback_line := none
    audio_playback_line_timeline := none
    spec_img := none
    nav_spec_img := none
    time_zoom_start := 0
    time_zoom_end := 0
    nav_dragging := false
    nav_resizing := false
    nav_drag_start := none
    nav_resize_edge := none
    nav_box := none
    spec_click_line := none
    spec_click_text := none
    selected_range := none
    fft_patch := none
    file_patch := none
    file_texts := []
    log_entries := []
    info_labels := [] }

/-! ### Save/load round-trip (C5), error handling (C6), reset (C8) -/

theorem lookupFile_writeFile (files : List (String × StateDict)) (fp : String)
    (d : StateDict) : lookupFile (writeFile files fp d) fp = some d := by
  induction files with
  | nil => simp [writeFile, lookupFile]
  | cons q t ih =>
    by_cases hq : q.1 = fp
    · simp [writeFile, lookupFile, hq]
    · simp [writeFile, lookupFile, hq, ih]

/-- C5: a successful `save_project` followed by `load_project` on the
same path returns the pickled dictionary, whose `file_paths`,
`time_zoom`, `current_timezone` and `freq_markers` entries are exactly
the saved state's values. -/
theorem c5_save_load_roundtrip (fp : String) (st : ModuleState) (fs : FS)
    (h : (save_project fp st fs).2.1 = true) :
    ∃ d : StateDict,
      (load_project fp (save_project fp st fs).1).1 = some d ∧
      d.file_paths = st.file_paths ∧
      d.time_zoom = (st.time_zoom_start, st.time_zoom_end) ∧
      d.current_timezone = st.current_timezone.zone.getD "UTC" ∧
      d.freq_markers = st.freq_markers.map (fun mk => mk.freq) := by
  by_cases hbad : fp ∈ fs.badPaths
  · exfalso
    simp [save_project, save_project_body, hbad] at h
  · refine ⟨mkStateDict st, ?_, rfl, rfl, rfl, rfl⟩
    simp [save_project, save_project_body, hbad, load_project, load_project_body,
      lookupFile_writeFile]

/-- Witness for C5 at a concrete path, state and filesystem. -/
theorem c5_save_load_roundtrip_witness :
    ∃ d : StateDict,
      (load_project "proj.pkl"
        (save_project "proj.pkl" initModuleState ⟨[], []⟩).1).1 = some d ∧
      d.file_paths = initModuleState.file_paths ∧
      d.time_zoom = (initModuleState.time_zoom_start, initModuleState.time_zoom_end) ∧
      d.current_timezone = initModuleState.current_timezone.zone.getD "UTC" ∧
      d.freq_markers = initModuleState.freq_markers.map (fun mk => mk.freq) :=
  c5_save_load_roundtrip "proj.pkl" initModuleState ⟨[], []⟩ rfl

/-- C6: save and load fail by best-effort logging, never by exception
(the embedded functions are total, the `except` arms producing the
`false`/`none` results): `save_project` returns `True` exactly on the
runs that wrote the dictionary and logged the save, returns `False`
leaving the filesystem unchanged and logging the error otherwise, and
`load_project` returns the stored dictionary on success and `None` with
a logged error on any exception (e.g. a missing file). -/
theorem c6_save_load_error_handling (fp : String) (st : ModuleState) (fs : FS) :
    ((save_project fp st fs).2.1 = true →
      (save_project fp st fs).1.files = writeFile fs.files fp (mkStateDict st) ∧
      (save_project fp st fs).2.2 = [LogMsg.info ("Project saved to " ++ fp)]) ∧
    ((save_project fp st fs).2.1 = false →
      (save_project fp st fs).1 = fs ∧
      ∃ e, (save_project fp st fs).2.2 = [LogMsg.error e]) ∧
    ((load_project fp fs).1 ≠ none →
      fp ∉ fs.badPaths ∧ (load_project fp fs).1 = lookupFile fs.files fp) ∧
    ((load_project fp fs).1 = none →
      ∃ e, (load_project fp fs).2 = [LogMsg.error e]) := by
  refine ⟨?_, ?_, ?_, ?_⟩ <;> by_cases hbad : fp ∈ fs.badPaths
  · intro h
    simp [save_project, save_project_body, hbad] at h
  · intro _
    exact ⟨by simp [save_project, save_project_body, hbad], by
      simp [save_project, save_project_body, hbad]⟩
  · intro _
    exact ⟨by simp [save_project, save_project_body, hbad],
      "Error saving project: " ++ ("cannot open " ++ fp), by
        simp [save_project, save_project_body, hbad]⟩
  · intro h
    simp [save_project, save_project_body, hbad] at h
  · intro h
    exfalso
    simp [load_project, load_project_body, hbad] at h
  · intro _
    refine ⟨hbad, ?_⟩
    cases hl : lookupFile fs.files fp with
    | none => simp [load_project, load_project_body, hbad, hl]
    | some d => simp [load_project, load_project_body, hbad, hl]
  · intro _
    exact ⟨"Error loading project: " ++ ("cannot open " ++ fp), by
      simp [load_project, load_project_body, hbad]⟩
  · intro h
    cases hl : lookupFile fs.files fp with
    | none =>
      exact ⟨"Error loading project: " ++ ("no such file " ++ fp), by
        simp [load_project, load_project_body, hbad, hl]⟩
    | some d => simp [load_project, load_project_body, hbad, hl] at h

/-- A dirtied module state: every field the claim C8 names moved off its
initial value, together with some of the data fields. -/
def dirtyState : ModuleState :=
  { initModuleState with
    data_global := some [[1, 2], [3, 4]]
    file_paths := ["cast1.txt"]
    time_zoom_start := 5
    selected_range := some (0, 1)
    current_timezone := ⟨some "US/Pacific"⟩
    fft_ymin := -10
    fft_ymax := 40
    freq_markers := [⟨none, none, 0, some 100, none⟩, ⟨none, none, 1, some 250, none⟩]
    file_scroll_position := 3
    visible_files := 20
    scroll_position := 7 }

/-- C8 (the code violates it): `reset_state` does reset the variables in
its `global` statement (`data_global`, `file_paths`, `time_zoom_start`,
`selected_range`, ...), but `current_timezone`, `fft_ymin`, `fft_ymax`,
`freq_markers`, `file_scroll_position`, `visible_files` and
`scroll_position` are assigned in the body without being declared
`global`, so on the dirtied state those module variables keep their
dirty values instead of returning to `UTC`, `0`, `120`, the empty-marker
list, `0`, `12` and `0`. -/
theorem c8_reset_state_misses_seven_vars :
    (reset_state dirtyState).data_global = none ∧
    (reset_state dirtyState).file_paths = [] ∧
    (reset_state dirtyState).time_zoom_start = 0 ∧
    (reset_state dirtyState).selected_range = none ∧
    (reset_state dirtyState).current_timezone = ⟨some "US/Pacific"⟩ ∧
    (reset_state dirtyState).current_timezone ≠ pytzUTC ∧
    (reset_state dirtyState).fft_ymin = -10 ∧
    (reset_state dirtyState).fft_ymax = 40 ∧
    (reset_state dirtyState).freq_markers ≠ initModuleState.freq_markers ∧
    (reset_state dirtyState).file_scroll_position = 3 ∧
    (reset_state dirtyState).visible_files = 20 ∧
    (reset_state dirtyState).scroll_position = 7 := by
  refine ⟨rfl, rfl, rfl, rfl, rfl, by decide, by norm_num [reset_state, dirtyState],
    by norm_num [reset_state, dirtyState], by decide, rfl, rfl, rfl⟩

/-! ## `ui_tabs.py` — `FilterTab`

The noise-profile machinery.  `np.vstack` of a non-empty list of
equal-length rows followed by `np.mean(..., axis=0)` is the per-column
arithmetic mean; `np.vstack` of an empty list raises `ValueError`. -/

/-- A saved noise profile (the dict `on_save_profile` builds; its
`metadata` entry is always the empty dict and is omitted). -/
structure Profile where
  name : String
  range : Nat × Nat
  data : List ℚ
  time : String
deriving DecidableEq, Repr

/-- `FilterTab`'s instance state: the profile list, the active profile,
the intensity slider value, the name `TextBox` text, and the status
light/text artists. -/
structure FilterTabState where
  noise_profiles : List Profile
  active_profile : Option Profile
  filter_intensity : ℚ
  name_input : String
  status_light : String
  status_text : String
deriving DecidableEq, Repr

/-- Columnwise sums of the stacked rows (`np.vstack` requires equal row
lengths; on such rows this is the vector of column sums). -/
def vsum : List (List ℚ) → List ℚ
  | [] => []
  | r :: rs =>
    match rs with
    | [] => r
    | _ :: _ => List.zipWith (· + ·) r (vsum rs)

/-- `np.mean(np.vstack(rows), axis=0)` for a non-empty `rows`. -/
def npMeanAxis0 (rows : List (List ℚ)) : List ℚ :=
  (vsum rows).map fun x => x / (rows.length : ℚ)

/-- The frames `data_global[i] for i in range(start, end+1)`. -/
def sliceFrames (d : List (List ℚ)) (a b : Nat) : List (List ℚ) :=
  (List.range' a (b + 1 - a)).map fun i => d.getD i []

/-- `FilterTab.on_save_profile`: with a selection and in-range data,
append one profile whose `data` is the stacked mean of the selected
frames; otherwise only log.  `np.vstack` raising on an empty selection
(`end < start`) is the one uncaught exception. -/
def on_save_profile (st : ModuleState) (ft : FilterTabState) :
    Except String (ModuleState × FilterTabState) :=
  match st.selected_range with
  | none => Except.ok (add_log_entry st "Cannot save profile - no selection", ft)
  | some (a, b) =>
    let profile_name :=
      if ft.name_input = "" then
        "Background Profile " ++ toString (ft.noise_profiles.length + 1)
      else ft.name_input
    match st.data_global with
    | none => Except.ok (add_log_entry st "Cannot save profile - invalid data range", ft)
    | some d =>
      if a < d.length ∧ b < d.length then
        if b + 1 ≤ a then
          Except.error "ValueError: need at least one array to concatenate"
        else
          let start_time :=
            if a < st.time_labels_all.length then st.time_labels_all.getD a "" else "N/A"
          let end_time :=
            if b < st.time_labels_all.length then st.time_labels_all.getD b "" else "N/A"
          let p : Profile :=
            { name := profile_name, range := (a, b),
              data := npMeanAxis0 (sliceFrames d a b),
              time := start_time ++ " - " ++ end_time }
          Except.ok (add_log_entry st ("Saved background profile '" ++ profile_name ++ "'"),
            { ft with noise_profiles := ft.noise_profiles ++ [p], name_input := "" })
      else Except.ok (add_log_entry st "Cannot save profile - invalid data range", ft)

/-- `FilterTab.on_toggle_filter` (the Apply Filter button): with an
active profile, toggle the status light/text; otherwise only log. -/
def on_toggle_filter (st : ModuleState) (ft : FilterTabState) :
    ModuleState × FilterTabState :=
  match ft.active_profile with
  | some _ =>
    if ft.status_text = "ON" then
      (add_log_entry st "Filtering turned off",
       { ft with status_light := "orange", status_text := "READY" })
    else
      (add_log_entry st
        ("Filtering turned on (intensity: " ++ toString ft.filter_intensity ++ ")"),
       { ft with status_light := "green", status_text := "ON" })
  | none => (add_log_entry st "Cannot apply filter - no profile loaded", ft)

/-! ### The stacked mean (C3) and the filter frame property (C4) -/

theorem getD_mem_of_lt {α : Type} (l : List α) (n : Nat) (dflt : α)
    (h : n < l.length) : l.getD n dflt ∈ l := by
  rw [List.getD_eq_getElem?_getD, List.getElem?_eq_getElem h]
  exact List.getElem_mem h

theorem zipWith_add_getD :
    ∀ (a : List ℚ) (b : List ℚ) (j : Nat), j < a.length → j < b.length →
      (List.zipWith (· + ·) a b).getD j 0 = a.getD j 0 + b.getD j 0 := by
  intro a
  induction a with
  | nil => intro b j ha _; cases ha
  | cons x xs ih =>
    intro b j ha hb
    cases b with
    | nil => cases hb
    | cons y ys =>
      cases j with
      | zero => simp
      | succ k =>
        simpa using ih ys k (by simpa using ha) (by simpa using hb)

theorem vsum_cons_cons (r s : List ℚ) (t : List (List ℚ)) :
    vsum (r :: s :: t) = List.zipWith (· + ·) r (vsum (s :: t)) := rfl

theorem vsum_length :
    ∀ (rows : List (List ℚ)) (n : Nat), rows ≠ [] → (∀ r ∈ rows, r.length = n) →
      (vsum rows).length = n := by
  intro rows
  induction rows with
  | nil => intro n h _; cases h rfl
  | cons r rs ih =>
    intro n _ hlen
    cases rs with
    | nil => exact hlen r (List.mem_cons_self r [])
    | cons s t =>
      have h1 : (vsum (s :: t)).length = n :=
        ih n (by simp) fun q hq => hlen q (List.mem_cons_of_mem r hq)
      have h2 : r.length = n := hlen r (List.mem_cons_self r _)
      rw [vsum_cons_cons, List.length_zipWith, h1, h2, Nat.min_self]

theorem vsum_getD :
    ∀ (rows : List (List ℚ)) (n : Nat), rows ≠ [] → (∀ r ∈ rows, r.length = n) →
      ∀ j, j < n → (vsum rows).getD j 0 = (rows.map fun r => r.getD j 0).sum := by
  intro rows
  induction rows with
  | nil => intro n h _; cases h rfl
  | cons r rs ih =>
    intro n _ hlen j hj
    cases rs with
    | nil => simp [vsum]
    | cons s t =>
      have hrl : j < r.length := by rw [hlen r (List.mem_cons_self r _)]; exact hj
      have hvl : j < (vsum (s :: t)).length := by
        rw [vsum_length (s :: t) n (by simp) fun q hq => hlen q (List.mem_cons_of_mem r hq)]
        exact hj
      have := ih n (by simp) (fun q hq => hlen q (List.mem_cons_of_mem r hq)) j hj
      rw [vsum_cons_cons, zipWith_add_getD r (vsum (s :: t)) j hrl hvl, this]
      simp

theorem map_div_getD :
    ∀ (l : List ℚ) (c : ℚ) (j : Nat), j < l.length →
      (l.map fun x => x / c).getD j 0 = l.getD j 0 / c := by
  intro l
  induction l with
  | nil => intro c j h; cases h
  | cons x xs ih =>
    intro c j h
    cases j with
    | zero => simp
    | succ k => simpa using ih c k (by simpa using h)

theorem npMeanAxis0_length (rows : List (List ℚ)) (n : Nat) (hne : rows ≠ [])
    (hlen : ∀ r ∈ rows, r.length = n) : (npMeanAxis0 rows).length = n := by
  simp [npMeanAxis0, vsum_length rows n hne hlen]

theorem npMeanAxis0_getD (rows : List (List ℚ)) (n : Nat) (hne : rows ≠ [])
    (hlen : ∀ r ∈ rows, r.length = n) (j : Nat) (hj : j < n) :
    (npMeanAxis0 rows).getD j 0 =
      (rows.map fun r => r.getD j 0).sum / (rows.length : ℚ) := by
  unfold npMeanAxis0
  rw [map_div_getD _ _ _ (by rw [vsum_length rows n hne hlen]; exact hj),
    vsum_getD rows n hne hlen j hj]

theorem length_sliceFrames (d : List (List ℚ)) (a b : Nat) :
    (sliceFrames d a b).length = b + 1 - a := by
  simp [sliceFrames]

theorem mem_sliceFrames {d : List (List ℚ)} {a b : Nat} (hb : b < d.length)
    {r : List ℚ} (hr : r ∈ sliceFrames d a b) : r ∈ d := by
  simp only [sliceFrames, List.mem_map] at hr
  obtain ⟨i, hi, rfl⟩ := hr
  have hir : a ≤ i ∧ i < a + (b + 1 - a) := by
    constructor
    · exact (List.mem_range'_1.mp hi).1
    · exact (List.mem_range'_1.mp hi).2
  exact getD_mem_of_lt d i [] (by omega)

/-- C3: a saved noise profile is the per-frequency-bin arithmetic mean of
the selected FFT frames.  With a selection `(start, end)`, in-range
non-`None` data and rectangular frames of `nbins` bins,
`on_save_profile` appends exactly one profile whose `range` is
`(start, end)` and whose `data` has, at every bin `j`, the mean of bin
`j` over frames `start..end` inclusive. -/
theorem c3_saved_profile_is_mean (st : ModuleState) (ft : FilterTabState)
    (a b nbins : Nat) (d : List (List ℚ))
    (hsel : st.selected_range = some (a, b)) (hd : st.data_global = some d)
    (hab : a ≤ b) (hb : b < d.length) (hrect : ∀ r ∈ d, r.length = nbins) :
    ∃ st' p,
      on_save_profile st ft = Except.ok (st',
        { ft with noise_profiles := ft.noise_profiles ++ [p], name_input := "" }) ∧
      p.range = (a, b) ∧
      p.data.length = nbins ∧
      ∀ j, j < nbins → p.data.getD j 0 =
        ((sliceFrames d a b).map fun r => r.getD j 0).sum / ((b - a + 1 : Nat) : ℚ) := by
  have ha : a < d.length := lt_of_le_of_lt hab hb
  have hne : sliceFrames d a b ≠ [] := by
    have hpos : 0 < (sliceFrames d a b).length := by
      rw [length_sliceFrames]
      omega
    exact List.ne_nil_of_length_pos hpos
  have hlen : ∀ r ∈ sliceFrames d a b, r.length = nbins :=
    fun r hr => hrect r (mem_sliceFrames hb hr)
  have hnlt : ¬ b + 1 ≤ a := by omega
  have heq : on_save_profile st ft = Except.ok
      (add_log_entry st ("Saved background profile '" ++
          (if ft.name_input = "" then
            "Background Profile " ++ toString (ft.noise_profiles.length + 1)
          else ft.name_input) ++ "'"),
        { ft with
          noise_profiles := ft.noise_profiles ++ [Profile.mk
            (if ft.name_input = "" then
              "Background Profile " ++ toString (ft.noise_profiles.length + 1)
            else ft.name_input)
            (a, b) (npMeanAxis0 (sliceFrames d a b))
            ((if a < st.time_labels_all.length then st.time_labels_all.getD a ""
              else "N/A") ++ " - " ++
              (if b < st.time_labels_all.length then st.time_labels_all.getD b ""
              else "N/A"))],
          name_input := "" }) := by
    simp only [on_save_profile, hsel, hd]
    rw [if_pos ⟨ha, hb⟩, if_neg hnlt]
  exact ⟨_, _, heq, rfl, npMeanAxis0_length _ _ hne hlen, fun j hj => by
    rw [npMeanAxis0_getD _ _ hne hlen j hj, length_sliceFrames]
    congr 2
    omega⟩

/-- Witness for C3: two frames `[1, 3]` and `[3, 5]` selected in full;
the saved profile's data is their binwise mean `[2, 4]`. -/
theorem c3_saved_profile_is_mean_witness :
    ∃ st' p,
      on_save_profile
        { initModuleState with
          selected_range := some (0, 1), data_global := some [[1, 3], [3, 5]] }
        ⟨[], none, 1/2, "Background Profile", "gray", "OFF"⟩ = Except.ok (st',
          { (⟨[], none, 1/2, "Background Profile", "gray", "OFF"⟩ : FilterTabState) with
            noise_profiles := [] ++ [p], name_input := "" }) ∧
      p.range = (0, 1) ∧
      p.data.length = 2 ∧
      ∀ j, j < 2 → p.data.getD j 0 =
        ((sliceFrames [[1, 3], [3, 5]] 0 1).map fun r => r.getD j 0).sum /
          ((1 - 0 + 1 : Nat) : ℚ) :=
  c3_saved_profile_is_mean _ _ 0 1 2 [[1, 3], [3, 5]] rfl rfl (by omega) (by decide)
    (by decide)

/-- C4: the Apply Filter button never touches the data or the saved
profiles: whatever the active profile and status, `on_toggle_filter`
leaves `data_global`, `freqs_global` and `noise_profiles` (and every
other state field and tab field except the status light/text) unchanged,
and appends exactly one log entry. -/
theorem c4_toggle_filter_only_logs (st : ModuleState) (ft : FilterTabState) :
    (on_toggle_filter st ft).1.data_global = st.data_global ∧
    (on_toggle_filter st ft).1.freqs_global = st.freqs_global ∧
    (on_toggle_filter st ft).2.noise_profiles = ft.noise_profiles ∧
    (∃ e, (on_toggle_filter st ft).1 = add_log_entry st e) ∧
    (on_toggle_filter st ft).2 =
      { ft with status_light := (on_toggle_filter st ft).2.status_light,
                status_text := (on_toggle_filter st ft).2.status_text } := by
  obtain ⟨nps, ap, fi, ni, sl, stx⟩ := ft
  cases ap with
  | none =>
    exact ⟨rfl, rfl, rfl, ⟨"Cannot apply filter - no profile loaded", rfl⟩, rfl⟩
  | some pr =>
    by_cases hon : stx = "ON"
    · refine ⟨?_, ?_, ?_, ⟨"Filtering turned off", ?_⟩, ?_⟩ <;>
        simp [on_toggle_filter, hon, add_log_entry]
    · refine ⟨?_, ?_, ?_,
        ⟨"Filtering turned on (intensity: " ++ toString fi ++ ")", ?_⟩, ?_⟩ <;>
        simp [on_toggle_filter, hon, add_log_entry]

/-! ## `ui_tabs.py` — `AnnotationsTab`

Source identifiers ending in the word "annotation" are shortened to `ann`
in the Lean names (`Annot` for the annotation dict, `on_add_ann` for
`AnnotationsTab.on_add_annotation`, `current_ann` for
`self.current_annotation`); the embedded fields and logic are unchanged. -/

/-- `UIColors.ACCENT_YELLOW`, the default annotation colour. -/
def accentYellow : String := "#DCDCAA"

/-- The annotation dict `on_add_annotation` builds: `id`, `range`,
`classification`, `comment`, `time_created` (a `time.strftime` stamp),
`color`, and the optional `time_range` added when both endpoints have
time labels. -/
structure Annot where
  id : Nat
  range : Nat × Nat
  classification : String
  comment : String
  time_created : String
  color : String
  time_range : Option String
deriving DecidableEq, Repr

/-- `AnnotationsTab`'s instance state: the annotations list, the selected
annotation, and the selection display text. -/
structure AnnTabState where
  annotations : List Annot
  current_ann : Option Annot
  selection_text : String
deriving DecidableEq, Repr

/-- `AnnotationsTab.highlight_annotation`: record the annotation as
current and update the selection display. -/
def highlight_ann (tb : AnnTabState) (ann : Annot) : AnnTabState :=
  { tb with
    current_ann := some ann,
    selection_text := "Selection: " ++ toString ann.range.1 ++ "-" ++
      toString ann.range.2 ++ "\n" ++ "Type: " ++ ann.classification }

/-- `AnnotationsTab.on_add_annotation`: with a selection `(start, end)`,
append one annotation (id = previous count + 1, classification
`"General"`, empty comment), highlight it and log; with no selection,
only log.  `now` is the `time.strftime("%Y-%m-%d %H:%M:%S")` value. -/
def on_add_ann (st : ModuleState) (tb : AnnTabState) (now : String) :
    ModuleState × AnnTabState :=
  match st.selected_range with
  | some (a, b) =>
    let ann : Annot :=
      { id := tb.annotations.length + 1
        range := (a, b)
        classification := "General"
        comment := ""
        time_created := now
        color := accentYellow
        time_range :=
          if a < st.time_labels_all.length ∧ b < st.time_labels_all.length then
            some (st.time_labels_all.getD a "" ++ " - " ++ st.time_labels_all.getD b "")
          else none }
    (add_log_entry st ("Added annotation at range " ++ toString a ++ "-" ++ toString b),
     highlight_ann { tb with annotations := tb.annotations ++ [ann] } ann)
  | none => (add_log_entry st "Cannot add annotation - no selection", tb)

/-- C7: an annotation records a time range with a classification label and
a comment.  With `selected_range = (start, end)`, `on_add_annotation`
appends exactly one annotation whose `range` is `(start, end)`, whose
`classification` is `"General"`, whose `comment` is empty and whose `id`
is the previous number of annotations plus one; with no selection the
annotations list is unchanged. -/
theorem c7_add_ann_appends (st : ModuleState) (tb : AnnTabState) (now : String)
    (a b : Nat) :
    (st.selected_range = some (a, b) →
      ∃ ann, (on_add_ann st tb now).2.annotations = tb.annotations ++ [ann] ∧
        ann.range = (a, b) ∧ ann.classification = "General" ∧ ann.comment = "" ∧
        ann.id = tb.annotations.length + 1) ∧
    (st.selected_range = none →
      (on_add_ann st tb now).2.annotations = tb.annotations) := by
  constructor
  · intro hsel
    refine ⟨Annot.mk (tb.annotations.length + 1) (a, b) "General" "" now accentYellow
      (if a < st.time_labels_all.length ∧ b < st.time_labels_all.length then
        some (st.time_labels_all.getD a "" ++ " - " ++ st.time_labels_all.getD b "")
      else none), ?_, rfl, rfl, rfl, rfl⟩
    simp [on_add_ann, hsel, highlight_ann]
  · intro hsel
    simp [on_add_ann, hsel]

/-- Witness for C7 at a concrete selection `(2, 5)` and at no selection. -/
theorem c7_add_ann_appends_witness :
    (({ initModuleState with selected_range := some (2, 5) } : ModuleState).selected_range
        = some (2, 5) →
      ∃ ann, (on_add_ann { initModuleState with selected_range := some (2, 5) }
          ⟨[], none, "No selection"⟩ "2026-01-01 00:00:00").2.annotations =
            [] ++ [ann] ∧
        ann.range = (2, 5) ∧ ann.classification = "General" ∧ ann.comment = "" ∧
        ann.id = ([] : List Annot).length + 1) ∧
    (({ initModuleState with selected_range := some (2, 5) } : ModuleState).selected_range
        = none →
      (on_add_ann { initModuleState with selected_range := some (2, 5) }
        ⟨[], none, "No selection"⟩ "2026-01-01 00:00:00").2.annotations = []) :=
  c7_add_ann_appends { initModuleState with selected_range := some (2, 5) }
    ⟨[], none, "No selection"⟩ "2026-01-01 00:00:00" 2 5

/-! ## `ui_tabs.py` — `AnalysisTab`

The FFT display range controls and the Find Peaks tool. -/

/-- `AnalysisTab`'s instance state: the stored FFT y-range and the
measurement results display text. -/
structure AnalysisTabState where
  fft_min_val : ℚ
  fft_max_val : ℚ
  results_text : String
deriving DecidableEq, Repr

/-- `AnalysisTab.__init__` (`fft_min_val = 0`, `fft_max_val = 120`) with
the initial results display. -/
def initAnalysisTab : AnalysisTabState := ⟨0, 120, "No measurements"⟩

/-- `AnalysisTab.adjust_fft_min(delta)`: clamp the new minimum to at
least `-20` and at most `fft_max_val - 10`, mirror it into
`state.fft_ymin` when the FFT axes exist, and log. -/
def adjust_fft_min (st : ModuleState) (tb : AnalysisTabState) (delta : ℚ) :
    ModuleState × AnalysisTabState :=
  let new_min := min (max (tb.fft_min_val + delta) (-20)) (tb.fft_max_val - 10)
  let st1 :=
    match st.ax_fft with
    | some _ => { st with fft_ymin := new_min }
    | none => st
  (add_log_entry st1 ("Adjusted FFT minimum to " ++ toString new_min),
   { tb with fft_min_val := new_min })

/-- `AnalysisTab.adjust_fft_max(delta)`: keep the new maximum at least
`fft_min_val + 10`, mirror it into `state.fft_ymax` when the FFT axes
exist, and log. -/
def adjust_fft_max (st : ModuleState) (tb : AnalysisTabState) (delta : ℚ) :
    ModuleState × AnalysisTabState :=
  let new_max := max (tb.fft_max_val + delta) (tb.fft_min_val + 10)
  let st1 :=
    match st.ax_fft with
    | some _ => { st with fft_ymax := new_max }
    | none => st
  (add_log_entry st1 ("Adjusted FFT maximum to " ++ toString new_max),
   { tb with fft_max_val := new_max })

/-- `AnalysisTab.on_reset_fft`: back to the defaults `0` and `120`. -/
def on_reset_fft (st : ModuleState) (tb : AnalysisTabState) :
    ModuleState × AnalysisTabState :=
  let st1 :=
    match st.ax_fft with
    | some _ => { st with fft_ymin := 0, fft_ymax := 120 }
    | none => st
  (add_log_entry st1 "Reset FFT range to defaults",
   { tb with fft_min_val := 0, fft_max_val := 120 })

/-- One button press of the three FFT-range operations (the claims allow
any integer delta). -/
inductive FFTAdjustOp
  | adjustMin (delta : Int) : FFTAdjustOp
  | adjustMax (delta : Int) : FFTAdjustOp
  | reset : FFTAdjustOp
deriving DecidableEq, Repr

def applyFFTOp (q : ModuleState × AnalysisTabState) :
    FFTAdjustOp → ModuleState × AnalysisTabState
  | FFTAdjustOp.adjustMin d => adjust_fft_min q.1 q.2 (d : ℚ)
  | FFTAdjustOp.adjustMax d => adjust_fft_max q.1 q.2 (d : ℚ)
  | FFTAdjustOp.reset => on_reset_fft q.1 q.2

/-- The FFT display-range invariant of claim C9. -/
def FFTRangeInv (tb : AnalysisTabState) : Prop :=
  -20 ≤ tb.fft_min_val ∧ tb.fft_min_val + 10 ≤ tb.fft_max_val

theorem fftInv_adjust_min (st : ModuleState) (tb : AnalysisTabState) (delta : ℚ)
    (h : FFTRangeInv tb) : FFTRangeInv (adjust_fft_min st tb delta).2 := by
  obtain ⟨h1, h2⟩ := h
  constructor
  · exact le_min (le_max_right _ _) (by linarith)
  · have := min_le_right (max (tb.fft_min_val + delta) (-20)) (tb.fft_max_val - 10)
    show min (max (tb.fft_min_val + delta) (-20)) (tb.fft_max_val - 10) + 10 ≤
      tb.fft_max_val
    linarith

theorem fftInv_adjust_max (st : ModuleState) (tb : AnalysisTabState) (delta : ℚ)
    (h : FFTRangeInv tb) : FFTRangeInv (adjust_fft_max st tb delta).2 := by
  obtain ⟨h1, h2⟩ := h
  refine ⟨h1, ?_⟩
  show tb.fft_min_val + 10 ≤ max (tb.fft_max_val + delta) (tb.fft_min_val + 10)
  exact le_max_right _ _

theorem fftInv_on_reset_fft (st : ModuleState) (tb : AnalysisTabState) :
    FFTRangeInv (on_reset_fft st tb).2 := by
  constructor <;> norm_num [on_reset_fft]

theorem fftInv_applyFFTOp (q : ModuleState × AnalysisTabState) (op : FFTAdjustOp)
    (h : FFTRangeInv q.2) : FFTRangeInv (applyFFTOp q op).2 := by
  cases op with
  | adjustMin d => exact fftInv_adjust_min q.1 q.2 _ h
  | adjustMax d => exact fftInv_adjust_max q.1 q.2 _ h
  | reset => exact fftInv_on_reset_fft q.1 q.2

/-- C9: the FFT display range keeps its minimum gap.  Starting from the
initial values `(0, 120)`, after every finite sequence of
`adjust_fft_min`, `adjust_fft_max` (any integer deltas) and
`on_reset_fft` presses, `fft_min_val ≥ -20` and
`fft_max_val ≥ fft_min_val + 10`. -/
theorem c9_fft_range_invariant (st0 : ModuleState) (ops : List FFTAdjustOp) :
    -20 ≤ (ops.foldl applyFFTOp (st0, initAnalysisTab)).2.fft_min_val ∧
    (ops.foldl applyFFTOp (st0, initAnalysisTab)).2.fft_min_val + 10 ≤
      (ops.foldl applyFFTOp (st0, initAnalysisTab)).2.fft_max_val := by
  have hfold : ∀ (l : List FFTAdjustOp) (q : ModuleState × AnalysisTabState),
      FFTRangeInv q.2 → FFTRangeInv ((l.foldl applyFFTOp q)).2 := by
    intro l
    induction l with
    | nil => exact fun q h => h
    | cons op rest ih => exact fun q h => ih _ (fftInv_applyFFTOp q op h)
  exact hfold ops (st0, initAnalysisTab) (by norm_num [FFTRangeInv, initAnalysisTab])

/-! ### `scipy.signal.find_peaks` (C10)

`on_find_peaks` delegates peak detection to
`scipy.signal.find_peaks(fft_data, height=fft_min_val + 10, distance=5)`,
which is not part of this repository.  It is modelled here after scipy's
implementation: local maxima with plateaus reduced to their midpoint
(`_local_maxima_1d`), then the height condition `x[peak] ≥ height`, then
the distance condition, removing peaks closer than `distance` to a
higher surviving peak, higher peaks processed first
(`_select_by_peak_distance`; numpy's `argsort` leaves the order of equal
heights unspecified, modelled here with a stable sort). -/

/-- The inner plateau scan of `_local_maxima_1d`: advance `i_ahead` while
it stays left of the last sample and the value equals the peak
candidate's. -/
def plateauEnd (x : List ℚ) (v : ℚ) : Nat → Nat → Nat
  | 0, i => i
  | fuel + 1, i =>
    if i < x.length - 1 ∧ x.getD i 0 = v then plateauEnd x v fuel (i + 1) else i

/-- The main scan of `_local_maxima_1d` from sample `i`, emitting plateau
midpoints; the fuel dominates the strictly increasing scan position. -/
def localMaximaAux (x : List ℚ) : Nat → Nat → List Nat
  | 0, _ => []
  | fuel + 1, i =>
    if i < x.length - 1 then
      if x.getD (i - 1) 0 < x.getD i 0 then
        let ia := plateauEnd x (x.getD i 0) x.length (i + 1)
        if x.getD ia 0 < x.getD i 0 then
          ((i + (ia - 1)) / 2) :: localMaximaAux x fuel (ia + 1)
        else localMaximaAux x fuel (i + 1)
      else localMaximaAux x fuel (i + 1)
    else []

/-- `scipy.signal._peak_finding_utils._local_maxima_1d`. -/
def localMaxima1d (x : List ℚ) : List Nat := localMaximaAux x x.length 1

/-- The height condition: keep peaks with `x[peak] ≥ height`. -/
def selectByHeight (x : List ℚ) (peaks : List Nat) (h : ℚ) : List Nat :=
  peaks.filter fun p => decide (h ≤ x.getD p 0)

/-- Distance between two sample indices. -/
def natDist (m n : Nat) : Nat := max m n - min m n

/-- Clear the keep-flag of every other peak strictly closer than `dist`
to peak position `j` (scipy's two neighbour loops). -/
def removeWithinDistance (peaks : List Nat) (keep : List Bool) (j : Nat)
    (dist : Nat) : List Bool :=
  (List.range keep.length).map fun k =>
    if k ≠ j ∧ natDist (peaks.getD k 0) (peaks.getD j 0) < dist then false
    else keep.getD k false

/-- Process the peak positions in priority order: a peak that still has
its keep-flag clears its too-close neighbours. -/
def selectAux (peaks : List Nat) (dist : Nat) : List Nat → List Bool → List Bool
  | [], keep => keep
  | j :: rest, keep =>
    if keep.getD j false then
      selectAux peaks dist rest (removeWithinDistance peaks keep j dist)
    else selectAux peaks dist rest keep

/-- Peak positions ordered by decreasing height (`np.argsort(priority)`
traversed backwards). -/
def priorityOrder (amps : List ℚ) : List Nat :=
  (List.range amps.length).mergeSort fun i j => decide (amps.getD j 0 ≤ amps.getD i 0)

/-- `scipy.signal._peak_finding_utils._select_by_peak_distance`. -/
def selectByPeakDistance (peaks : List Nat) (amps : List ℚ) (dist : Nat) :
    List Nat :=
  let keep := selectAux peaks dist (priorityOrder amps) (List.replicate peaks.length true)
  ((List.range peaks.length).filter fun k => keep.getD k false).map
    fun k => peaks.getD k 0

/-- `scipy.signal.find_peaks(x, height, distance)` for the two keyword
conditions `on_find_peaks` passes. -/
def find_peaks (x : List ℚ) (height : ℚ) (distance : Nat) : List Nat :=
  let peaks1 := selectByHeight x (localMaxima1d x) height
  selectByPeakDistance peaks1 (peaks1.map fun p => x.getD p 0) distance

/-- `np.argsort(peak_amps)[::-1]` applied to the (frequency, amplitude)
pairs: sort by decreasing amplitude. -/
def sortPairsByAmpDesc (l : List (ℚ × ℚ)) : List (ℚ × ℚ) :=
  l.mergeSort fun p q => decide (q.2 ≤ p.2)

/-- The peak list `on_find_peaks` displays: the detected peaks' pairs
sorted by decreasing amplitude and limited to the top 5. -/
def topPeaks (freqs fft_data : List ℚ) (hmin : ℚ) : List (ℚ × ℚ) :=
  (sortPairsByAmpDesc ((find_peaks fft_data (hmin + 10) 5).map
    fun p => (freqs.getD p 0, fft_data.getD p 0))).take 5

/-- The numbered `"i. freq Hz: amp dB"` result lines (the `:.1f` float
formatting is not reproduced; rationals print exactly). -/
def renderPeakLines : Nat → List (ℚ × ℚ) → String
  | _, [] => ""
  | i, pa :: rest =>
    toString (i + 1) ++ ". " ++ toString pa.1 ++ " Hz: " ++ toString pa.2 ++
      " dB\n" ++ renderPeakLines (i + 1) rest

/-- The `"Top peaks:"` results text. -/
def renderPeaks (l : List (ℚ × ℚ)) : String := "Top peaks:\n" ++ renderPeakLines 0 l

/-- `AnalysisTab.on_find_peaks`: with data, frequencies and a clicked
line whose index is in range, run `find_peaks` on the clicked frame;
display the top peaks sorted by amplitude, or the no-peaks message; in
every other case do nothing. -/
def on_find_peaks (st : ModuleState) (tb : AnalysisTabState) :
    ModuleState × AnalysisTabState :=
  match st.freqs_global, st.data_global with
  | some freqs, some d =>
    match st.spec_click_line with
    | some ix =>
      if 0 ≤ ix ∧ ix < (d.length : Int) then
        let fft_data := d.getD ix.toNat []
        if (find_peaks fft_data (tb.fft_min_val + 10) 5).isEmpty then
          (add_log_entry st "No peaks found in FFT data",
           { tb with results_text := "No peaks found above threshold" })
        else
          let top := topPeaks freqs fft_data tb.fft_min_val
          (add_log_entry st ("Found " ++ toString top.length ++ " peaks in FFT data"),
           { tb with results_text := renderPeaks top })
      else (st, tb)
    | none => (st, tb)
  | _, _ => (st, tb)

/-! ### Find Peaks reports at most five peaks, descending (C10) -/

theorem mem_selectByPeakDistance {peaks : List Nat} {amps : List ℚ} {dist : Nat}
    {p : Nat} (hp : p ∈ selectByPeakDistance peaks amps dist) : p ∈ peaks := by
  unfold selectByPeakDistance at hp
  simp only [List.mem_map, List.mem_filter, List.mem_range] at hp
  obtain ⟨k, ⟨hk, _⟩, rfl⟩ := hp
  exact getD_mem_of_lt peaks k 0 hk

theorem height_of_mem_find_peaks {x : List ℚ} {h : ℚ} {dist : Nat} {p : Nat}
    (hp : p ∈ find_peaks x h dist) : h ≤ x.getD p 0 := by
  unfold find_peaks at hp
  have h1 : p ∈ selectByHeight x (localMaxima1d x) h := mem_selectByPeakDistance hp
  unfold selectByHeight at h1
  exact of_decide_eq_true (List.mem_filter.mp h1).2

theorem sorted_sortPairsByAmpDesc (l : List (ℚ × ℚ)) :
    (sortPairsByAmpDesc l).Pairwise fun p q => q.2 ≤ p.2 := by
  have htrans : ∀ (a b c : ℚ × ℚ), (fun p q : ℚ × ℚ => decide (q.2 ≤ p.2)) a b →
      (fun p q : ℚ × ℚ => decide (q.2 ≤ p.2)) b c →
      (fun p q : ℚ × ℚ => decide (q.2 ≤ p.2)) a c := by
    intro a b c h1 h2
    simp only [decide_eq_true_eq] at *
    exact le_trans h2 h1
  have htotal : ∀ (a b : ℚ × ℚ), ((fun p q : ℚ × ℚ => decide (q.2 ≤ p.2)) a b ||
      (fun p q : ℚ × ℚ => decide (q.2 ≤ p.2)) b a) := by
    intro a b
    simp only [Bool.or_eq_true, decide_eq_true_eq]
    exact le_total b.2 a.2
  exact (List.sorted_mergeSort htrans htotal l).imp fun h => of_decide_eq_true h

theorem mem_topPeaks {freqs fft_data : List ℚ} {hmin : ℚ} {pa : ℚ × ℚ}
    (hpa : pa ∈ topPeaks freqs fft_data hmin) : hmin + 10 ≤ pa.2 := by
  unfold topPeaks at hpa
  have h1 : pa ∈ sortPairsByAmpDesc ((find_peaks fft_data (hmin + 10) 5).map
      fun p => (freqs.getD p 0, fft_data.getD p 0)) :=
    (List.take_sublist 5 _).mem hpa
  rw [sortPairsByAmpDesc, List.mem_mergeSort] at h1
  simp only [List.mem_map] at h1
  obtain ⟨p, hp, rfl⟩ := h1
  exact height_of_mem_find_peaks hp

/-- C10: on a valid click, Find Peaks reports at most the five strongest
peaks in non-increasing amplitude order, each meeting the detection
height threshold `fft_min_val + 10`; with no detected peak it reports
that none were found; and the data (`data_global`, `freqs_global`) is
unchanged in every case. -/
theorem c10_find_peaks_top5 (st : ModuleState) (tb : AnalysisTabState)
    (freqs : List ℚ) (d : List (List ℚ)) (ix : Int)
    (hf : st.freqs_global = some freqs) (hd : st.data_global = some d)
    (hc : st.spec_click_line = some ix) (h0 : 0 ≤ ix)
    (hlt : ix < (d.length : Int)) :
    (topPeaks freqs (d.getD ix.toNat []) tb.fft_min_val).length ≤ 5 ∧
    (topPeaks freqs (d.getD ix.toNat []) tb.fft_min_val).Pairwise
      (fun p q => q.2 ≤ p.2) ∧
    (∀ pa ∈ topPeaks freqs (d.getD ix.toNat []) tb.fft_min_val,
      tb.fft_min_val + 10 ≤ pa.2) ∧
    (on_find_peaks st tb).2.results_text =
      (if (find_peaks (d.getD ix.toNat []) (tb.fft_min_val + 10) 5).isEmpty then
        "No peaks found above threshold"
      else renderPeaks (topPeaks freqs (d.getD ix.toNat []) tb.fft_min_val)) ∧
    (on_find_peaks st tb).1.data_global = st.data_global ∧
    (on_find_peaks st tb).1.freqs_global = st.freqs_global := by
  have hrange : 0 ≤ ix ∧ ix < (d.length : Int) := ⟨h0, hlt⟩
  refine ⟨?_, ?_, fun pa hpa => mem_topPeaks hpa, ?_, ?_, ?_⟩
  · unfold topPeaks
    rw [List.length_take]
    exact min_le_left _ _
  · exact (sorted_sortPairsByAmpDesc _).sublist (List.take_sublist 5 _)
  · simp only [on_find_peaks, hf, hd, hc]
    rw [if_pos hrange]
    cases he : (find_peaks (d.getD ix.toNat []) (tb.fft_min_val + 10) 5).isEmpty <;>
      simp [he]
  · simp only [on_find_peaks, hf, hd, hc]
    rw [if_pos hrange]
    cases he : (find_peaks (d.getD ix.toNat []) (tb.fft_min_val + 10) 5).isEmpty <;>
      simp [he, add_log_entry, hd]
  · simp only [on_find_peaks, hf, hd, hc]
    rw [if_pos hrange]
    cases he : (find_peaks (d.getD ix.toNat []) (tb.fft_min_val + 10) 5).isEmpty <;>
      simp [he, add_log_entry, hf]

/-- Witness for C10: one frame `[0, 50, 0, 60, 0]` clicked at index 0
with threshold 10; the maxima at samples 1 and 3 are closer than
`distance = 5`, so only the stronger peak `(30 Hz, 60 dB)` survives and
is displayed. -/
theorem c10_find_peaks_top5_witness :
    (topPeaks [0, 10, 20, 30, 40] ([[0, 50, 0, 60, 0]].getD (Int.toNat 0) [])
        (initAnalysisTab.fft_min_val)).length ≤ 5 ∧
    (topPeaks [0, 10, 20, 30, 40] ([[0, 50, 0, 60, 0]].getD (Int.toNat 0) [])
        (initAnalysisTab.fft_min_val)).Pairwise (fun p q => q.2 ≤ p.2) ∧
    (∀ pa ∈ topPeaks [0, 10, 20, 30, 40] ([[0, 50, 0, 60, 0]].getD (Int.toNat 0) [])
        (initAnalysisTab.fft_min_val),
      initAnalysisTab.fft_min_val + 10 ≤ pa.2) ∧
    (on_find_peaks
        { initModuleState with
          freqs_global := some [0, 10, 20, 30, 40],
          data_global := some [[0, 50, 0, 60, 0]],
          spec_click_line := some 0 } initAnalysisTab).2.results_text =
      (if (find_peaks ([[0, 50, 0, 60, 0]].getD (Int.toNat 0) [])
          (initAnalysisTab.fft_min_val + 10) 5).isEmpty then
        "No peaks found above threshold"
      else renderPeaks (topPeaks [0, 10, 20, 30, 40]
        ([[0, 50, 0, 60, 0]].getD (Int.toNat 0) []) (initAnalysisTab.fft_min_val))) ∧
    (on_find_peaks
        { initModuleState with
          freqs_global := some [0, 10, 20, 30, 40],
          data_global := some [[0, 50, 0, 60, 0]],
          spec_click_line := some 0 } initAnalysisTab).1.data_global =
      ({ initModuleState with
          freqs_global := some [0, 10, 20, 30, 40],
          data_global := some [[0, 50, 0, 60, 0]],
          spec_click_line := some 0 } : ModuleState).data_global ∧
    (on_find_peaks
        { initModuleState with
          freqs_global := some [0, 10, 20, 30, 40],
          data_global := some [[0, 50, 0, 60, 0]],
          spec_click_line := some 0 } initAnalysisTab).1.freqs_global =
      ({ initModuleState with
          freqs_global := some [0, 10, 20, 30, 40],
          data_global := some [[0, 50, 0, 60, 0]],
          spec_click_line := some 0 } : ModuleState).freqs_global :=
  c10_find_peaks_top5
    { initModuleState with
      freqs_global := some [0, 10, 20, 30, 40],
      data_global := some [[0, 50, 0, 60, 0]],
      spec_click_line := some 0 } initAnalysisTab
    [0, 10, 20, 30, 40] [[0, 50, 0, 60, 0]] 0 rfl rfl rfl (by decide) (by decide)

end Hydro
